import Mathlib

/-!
Verification development for the document progress tracker of
paperless-concierge (`src/document_tracker.py`).

The tracker is a per-item state machine driven by a single polling loop.
We shallowly embed it: each Python handler becomes a pure Lean function;
the network environment visible to one tick (HTTP responses, search
results, AI metadata) is an explicit `World` record; exceptions become an
`Except` result with an explicit exception-class tag; timestamps are
integers (seconds); Python truthiness of optional integers and strings is
modelled explicitly.
-/

set_option autoImplicit false

namespace DT

/-- Python truthiness of an optional integer (`None` and `0` are falsy). -/
def optIntTruthy : Option Int → Bool
  | none => false
  | some n => n != 0

/-- A date-string field of an upstream JSON payload: missing/empty (falsy),
present but unparseable, or parseable to a timestamp (seconds). -/
inductive DateStr where
  | missing
  | garbled (s : String)
  | time (t : Int)
  deriving DecidableEq, Repr

/-- Python truthiness of a date-string field. -/
def dateTruthy : DateStr → Bool
  | .missing => false
  | _ => true

/-- `dateutil.parser.parse`: succeeds exactly on a well-formed timestamp. -/
def parseDate : DateStr → Option Int
  | .time t => some t
  | _ => none

/-- Leading-match of one character list against another. -/
def charsLeading : List Char → List Char → Bool
  | [], _ => true
  | _ :: _, [] => false
  | a :: as, b :: bs => a == b && charsLeading as bs

/-- Containment of `needle` anywhere in the character list. -/
def charsContain (needle : List Char) : List Char → Bool
  | [] => charsLeading needle []
  | b :: bs => charsLeading needle (b :: bs) || charsContain needle bs

/-- Python `needle in haystack` on strings. -/
def strContains (haystack needle : String) : Bool :=
  charsContain needle.toList haystack.toList

/-- Python `filename.split(".")[0]`: the part before the first dot. -/
def beforeFirstDot (s : String) : String :=
  String.mk (s.toList.takeWhile (fun c => c != '.'))

/-- The display name with its (last) extension removed, as in
`os.path.splitext`; used to state the spec wording of the fallback search. -/
def dropLastExt (s : String) : String :=
  let r := s.toList.reverse
  if r.contains '.' then String.mk (((r.dropWhile (fun c => c != '.')).drop 1).reverse)
  else s

/-- Python `bool(s.strip())`: true iff some character is not whitespace. -/
def stripTruthy (s : String) : Bool :=
  s.toList.any (fun c => !c.isWhitespace)

/-- The Python exception classes relevant to the tracker:
the four classes the loop catches per item, `OSError` (loop level only),
`asyncio.CancelledError`, and a catch-all for every other class
(e.g. the bare `Exception` raised by `PaperlessClient.get_document_status`). -/
inductive ExcKind where
  | clientError
  | valueError
  | keyError
  | attributeError
  | osError
  | cancelledError
  | otherException
  deriving DecidableEq, Repr

/-- A raised Python exception: its class and its `str(e)` message. -/
structure PyExc where
  cls : ExcKind
  msg : String
  deriving DecidableEq, Repr

/-- Classes of `except (aiohttp.ClientError, ValueError, KeyError)` inside
`_handle_processing_state`. -/
def processingCaught : ExcKind → Bool
  | .clientError | .valueError | .keyError => true
  | _ => false

/-- Classes of the per-item `except (aiohttp.ClientError, ValueError,
KeyError, AttributeError)` in `_tracking_loop`. -/
def perItemCaught : ExcKind → Bool
  | .clientError | .valueError | .keyError | .attributeError => true
  | _ => false

/-- Classes of the loop-level `except (aiohttp.ClientError, ValueError,
KeyError, AttributeError, OSError)` in `_tracking_loop`. -/
def loopCaught : ExcKind → Bool
  | .clientError | .valueError | .keyError | .attributeError | .osError => true
  | _ => false

/-- Constants from `constants.py`. -/
def CACHE_EXPIRE_TIME : Int := 86400

def AI_PROCESSING_TIMEOUT : Nat := 120

def CONSUMPTION_TIMEOUT : Nat := 60

def AI_TRIGGER_MAX_RETRIES : Nat := 5

/-- The `status` strings of `TrackedDocument`. -/
inductive Status where
  | processing
  | waiting_for_consumption
  | paperless_indexing
  | triggering_ai
  | waiting_for_ai
  | completed
  deriving DecidableEq, Repr

/-- AI metadata assembled by `_check_ai_processing` from the document
payload (tag names resolved, correspondent and type names fetched). -/
structure AiMeta where
  title : String
  tags : List String
  correspondent : Option String
  doc_type : Option String
  content_preview : Option String
  deriving DecidableEq, Repr

/-- `TrackedDocument` (the non-collaborator fields; `paperless_client` is a
handle to the upstream client, whose behaviour lives in `World`). -/
structure TrackedDocument where
  task_id : String
  user_id : Int
  chat_id : Int
  filename : String
  upload_time : Int
  status : Status := .processing
  document_id : Option Int := none
  ai_processed : Bool := false
  retry_count : Nat := 0
  max_retries : Nat := 30
  ai_analysis : Option AiMeta := none
  tracking_uuid : Option String := none
  deriving DecidableEq, Repr

/-- One entry of an upstream document listing / search result. -/
structure UDoc where
  id : Option Int
  created : DateStr
  original_file_name : String
  title : String
  deriving DecidableEq, Repr

/-- Result of fetching `/api/documents/{id}/`. -/
inductive FetchResult where
  | notFound
  | httpError (code : Int)
  | exc
  | payload (content : String) (created : DateStr)
  deriving DecidableEq, Repr

/-- The upstream environment one tick observes. `none` for a listing or
search models an HTTP failure or a caught transport exception (the code
treats both as "no results"). -/
structure World where
  /-- outcome of `get_document_status`: `none` means it returned normally
  (task still processing), `some e` means it raised `e`. -/
  taskStatus : Option PyExc
  /-- recent-50 listing used by `_find_document_by_uuid`. -/
  recent50 : Option (List UDoc)
  /-- `search_documents term` used by the filename fallback. -/
  search : String → Option (List UDoc)
  /-- recent-20 listing used for the empty fallback term. -/
  recent20 : Option (List UDoc)
  /-- fetch of a document by id, used by `_is_document_ready`. -/
  fetchDoc : Int → FetchResult
  /-- recent-50 listing used by `_verify_document_searchable`. -/
  recentVerify : Option (List UDoc)
  /-- truthiness of `paperless_client.ai_url`. -/
  aiUrl : Bool
  /-- result of `trigger_ai_processing`. -/
  aiTriggerOk : Bool
  /-- document metadata visible to `_check_ai_processing`
  (`none` = fetch failed or exception). -/
  aiMeta : Option AiMeta

/-- User-visible notifications the tracker can send. -/
inductive Note where
  | timeout
  | basicSuccess
  | success
  | failure
  deriving DecidableEq, Repr

/-- Result of one handler invocation: the mutated item, whether the item is
finished (goes on `completed_tasks`), and the notifications sent. -/
structure HandlerResult where
  doc : TrackedDocument
  complete : Bool
  notes : List Note
  deriving DecidableEq, Repr

/-- The candidate test of `_find_document_by_uuid`: the tracking UUID occurs
in the stored original filename or in the title. -/
def uuidMatch (uuid : String) (d : UDoc) : Bool :=
  strContains d.original_file_name uuid || strContains d.title uuid

/-- `_find_document_by_uuid`: scan the recent-50 listing (newest first) and
return the id of the first candidate whose original filename or title
contains the UUID. -/
def findDocumentByUuid (recent : Option (List UDoc)) (uuid : String) : Option Int :=
  match recent with
  | none => none
  | some docs =>
    match docs.find? (uuidMatch uuid) with
    | some d => d.id
    | none => none

/-- `_is_document_recent`: parse the creation date; unparseable dates are
not recent; otherwise compare with the threshold. -/
def isDocumentRecent (created : DateStr) (threshold : Int) : Bool :=
  match parseDate created with
  | some t => decide (threshold ≤ t)
  | none => false

/-- `_search_documents_by_term`: a non-empty term goes to search, the empty
term fetches the recent-20 listing. -/
def searchDocumentsByTerm (w : World) (term : String) : Option (List UDoc) :=
  if term != "" then w.search term else w.recent20

/-- The acceptance test applied to each search result in
`_find_recent_document_by_filename`: a truthy created date, a truthy id,
and a creation time at or after the threshold. -/
def acceptRecent (threshold : Int) (d : UDoc) : Option Int :=
  if dateTruthy d.created && optIntTruthy d.id && isDocumentRecent d.created threshold then
    d.id
  else none

/-- The three fallback search terms, in order: the filename up to the first
dot, the full filename, and the empty term. -/
def fallbackSearchTerms (filename : String) : List String :=
  [beforeFirstDot filename, filename, ""]

/-- `_find_recent_document_by_filename`: try the three terms in order; for
each, scan that search's results and return the first acceptable id. -/
def findRecentDocumentByFilename (w : World) (filename : String) (upload_time : Int) :
    Option Int :=
  let threshold := upload_time - 600
  (fallbackSearchTerms filename).findSome? (fun term =>
    match searchDocumentsByTerm w term with
    | none => none
    | some results => results.findSome? (acceptRecent threshold))

/-- The dispatch at the top of `_handle_waiting_for_consumption_state`:
token search when a tracking UUID is present, filename fallback otherwise. -/
def consumptionLookup (w : World) (doc : TrackedDocument) : Option Int :=
  match doc.tracking_uuid with
  | some uuid => findDocumentByUuid w.recent50 uuid
  | none => findRecentDocumentByFilename w doc.filename doc.upload_time

/-- `_verify_document_searchable`: the document id appears in the recent
listing; a failed listing yields false. -/
def verifyDocumentSearchable (recent : Option (List UDoc)) (docId : Int) : Bool :=
  match recent with
  | none => false
  | some docs => docs.any (fun d => d.id == some docId)

/-- `_is_document_ready`: a falsy document id is not ready; a 404, another
HTTP error, or an exception is not ready; otherwise the payload must have
non-empty stripped content and a truthy created date, and the document must
appear in the recent listing. -/
def isDocumentReady (w : World) (doc : TrackedDocument) : Bool :=
  match doc.document_id with
  | none => false
  | some i =>
    if i == 0 then false
    else
      match w.fetchDoc i with
      | .notFound => false
      | .httpError _ => false
      | .exc => false
      | .payload content created =>
        if stripTruthy content && dateTruthy created then
          verifyDocumentSearchable w.recentVerify i
        else false

/-- `_check_ai_processing`: needs a truthy document id and a fetchable
payload; reports metadata only when tags, correspondent or type is present. -/
def checkAiProcessing (w : World) (doc : TrackedDocument) : Option AiMeta :=
  if optIntTruthy doc.document_id then
    match w.aiMeta with
    | none => none
    | some m =>
      if !m.tags.isEmpty || m.correspondent.isSome || m.doc_type.isSome then some m
      else none
  else none

/-- `_handle_processing_state`: a normal return from `get_document_status`
means the upload task is still running (count the tick); a caught exception
whose message contains "Not found" moves the item to consumption polling
with the counter reset; a caught exception without it changes nothing; any
other exception class propagates. -/
def handleProcessing (w : World) (doc : TrackedDocument) : Except PyExc HandlerResult :=
  match w.taskStatus with
  | none => .ok ⟨{ doc with retry_count := doc.retry_count + 1 }, false, []⟩
  | some e =>
    if processingCaught e.cls then
      if strContains e.msg "Not found" then
        .ok ⟨{ doc with status := .waiting_for_consumption, retry_count := 0 }, false, []⟩
      else .ok ⟨doc, false, []⟩
    else .error e

/-- `_handle_waiting_for_consumption_state`: a truthy lookup result moves
the item to indexing with the counter reset; otherwise count the tick and
give up with a basic-success notification at `CONSUMPTION_TIMEOUT`. -/
def handleWaitingForConsumption (w : World) (doc : TrackedDocument) : HandlerResult :=
  let docId := consumptionLookup w doc
  if optIntTruthy docId then
    ⟨{ doc with document_id := docId, status := .paperless_indexing, retry_count := 0 },
      false, []⟩
  else
    let d := { doc with retry_count := doc.retry_count + 1 }
    if CONSUMPTION_TIMEOUT ≤ d.retry_count then ⟨d, true, [.basicSuccess]⟩
    else ⟨d, false, []⟩

/-- `_handle_paperless_indexing_state`. -/
def handlePaperlessIndexing (w : World) (doc : TrackedDocument) : HandlerResult :=
  if isDocumentReady w doc then
    ⟨{ doc with status := .triggering_ai, retry_count := 0 }, false, []⟩
  else ⟨{ doc with retry_count := doc.retry_count + 1 }, false, []⟩

/-- `_handle_triggering_ai_state`: with AI configured, a successful trigger
moves to AI polling with the counter reset, a failed one counts the tick
and gives up with basic success at `AI_TRIGGER_MAX_RETRIES`; with no AI the
item is completed at once with the success notification. -/
def handleTriggeringAi (w : World) (doc : TrackedDocument) : HandlerResult :=
  if w.aiUrl then
    if w.aiTriggerOk then
      ⟨{ doc with status := .waiting_for_ai, retry_count := 0 }, false, []⟩
    else
      let d := { doc with retry_count := doc.retry_count + 1 }
      if AI_TRIGGER_MAX_RETRIES ≤ d.retry_count then ⟨d, true, [.basicSuccess]⟩
      else ⟨d, false, []⟩
  else ⟨{ doc with status := .completed }, true, [.success]⟩

/-- `_handle_waiting_for_ai_state`: detected metadata completes the item
with the success notification; otherwise count the tick and give up with
basic success at `AI_PROCESSING_TIMEOUT`. -/
def handleWaitingForAi (w : World) (doc : TrackedDocument) : HandlerResult :=
  match checkAiProcessing w doc with
  | some m =>
    ⟨{ doc with ai_analysis := some m, ai_processed := true, status := .completed },
      true, [.success]⟩
  | none =>
    let d := { doc with retry_count := doc.retry_count + 1 }
    if AI_PROCESSING_TIMEOUT ≤ d.retry_count then ⟨d, true, [.basicSuccess]⟩
    else ⟨d, false, []⟩

/-- `_process_document_state`: completed items are cleaned up; then the
global timeout check (`_handle_timeout_check`) force-completes any item
whose counter has reached `max_retries`, with the timeout notification;
then the handler of the current state runs. -/
def processDocumentState (w : World) (doc : TrackedDocument) : Except PyExc HandlerResult :=
  if doc.status = .completed then .ok ⟨doc, true, []⟩
  else if doc.max_retries ≤ doc.retry_count then .ok ⟨doc, true, [.timeout]⟩
  else
    match doc.status with
    | .processing => handleProcessing w doc
    | .waiting_for_consumption => .ok (handleWaitingForConsumption w doc)
    | .paperless_indexing => .ok (handlePaperlessIndexing w doc)
    | .triggering_ai => .ok (handleTriggeringAi w doc)
    | .waiting_for_ai => .ok (handleWaitingForAi w doc)
    | .completed => .ok ⟨doc, true, []⟩

/-- Python dict assignment on an association list: an existing key keeps its
position with the value replaced, a new key is appended. -/
def dictSet {α : Type} : List (String × α) → String → α → List (String × α)
  | [], k, v => [(k, v)]
  | (k2, v2) :: rest, k, v =>
    if k2 == k then (k, v) :: rest else (k2, v2) :: dictSet rest k v

/-- Python dict lookup on an association list. -/
def dictGet {α : Type} (l : List (String × α)) (k : String) : Option α :=
  (l.find? (fun p => p.1 == k)).map Prod.snd

/-- The immediate status probe passed to `add_document`: its `status`
string and the two places a document id may sit (`document_id`, or
`result.document_id`). -/
structure ImmediateStatus where
  status : String
  document_id : Option Int
  result_document_id : Option Int
  deriving DecidableEq, Repr

/-- `immediate_status.get("document_id") or
immediate_status.get("result", {}).get("document_id")`. -/
def hintResolvedId (s : ImmediateStatus) : Option Int :=
  if optIntTruthy s.document_id then s.document_id else s.result_document_id

/-- The fresh `TrackedDocument` built at the top of `add_document`. -/
def newTrackedDocument (task_id : String) (user_id chat_id : Int) (filename : String)
    (now : Int) (tracking_uuid : Option String) : TrackedDocument :=
  { task_id := task_id, user_id := user_id, chat_id := chat_id, filename := filename,
    upload_time := now, tracking_uuid := tracking_uuid }

/-- The immediate-status branch of `add_document`: a truthy `SUCCESS` probe
with a truthy document id starts the item in `paperless_indexing`. -/
def applyImmediateStatus (doc : TrackedDocument) : Option ImmediateStatus → TrackedDocument
  | none => doc
  | some s =>
    if s.status == "SUCCESS" then
      if optIntTruthy (hintResolvedId s) then
        { doc with document_id := hintResolvedId s, status := .paperless_indexing }
      else doc
    else doc

/-- `add_document`: build the fresh item, apply the immediate-status branch,
assign it into the registry dict, persist. It sends no notification, so the
note list is empty; it raises nothing, so the function is total. -/
def addDocument (registry : List (String × TrackedDocument)) (task_id : String)
    (user_id chat_id : Int) (filename : String) (now : Int)
    (immediate_status : Option ImmediateStatus) (tracking_uuid : Option String) :
    List (String × TrackedDocument) × List Note :=
  let doc := applyImmediateStatus
    (newTrackedDocument task_id user_id chat_id filename now tracking_uuid) immediate_status
  (dictSet registry task_id doc, [])

/-- What one pass over `list(self.tracked_documents.items())` produces: the
items with their in-place mutations, the `completed_tasks` ids, the
notifications sent, and the exception (if any) that escaped the per-item
catch. On an escape the remaining items are left unprocessed and no
completion is recorded (the cleanup block below the loop never runs). -/
structure TickRun where
  docs : List (String × TrackedDocument)
  completed : List String
  notes : List Note
  escaped : Option PyExc
  deriving DecidableEq, Repr

/-- The per-item loop of `_tracking_loop`: run the state step for each item
in order; an exception of one of the four caught classes is logged and
counted on that item; any other class aborts the pass. -/
def runItems (step : String → TrackedDocument → Except PyExc HandlerResult) :
    List (String × TrackedDocument) → TickRun
  | [] => ⟨[], [], [], none⟩
  | (tid, d) :: rest =>
    match step tid d with
    | .ok r =>
      let t := runItems step rest
      ⟨(tid, r.doc) :: t.docs, (if r.complete then [tid] else []) ++ t.completed,
        r.notes ++ t.notes, t.escaped⟩
    | .error e =>
      if perItemCaught e.cls then
        let t := runItems step rest
        ⟨(tid, { d with retry_count := d.retry_count + 1 }) :: t.docs, t.completed,
          t.notes, t.escaped⟩
      else ⟨(tid, d) :: rest, [], [], some e⟩

/-- Outcome of one tick of `_tracking_loop`: a normal tick removes the
completed items; an escaped exception skips the cleanup and is then either
the clean `CancelledError` stop, caught by the loop-level tuple, or fatal
to the loop. -/
inductive TickOutcome where
  | normal (docs : List (String × TrackedDocument)) (notes : List Note)
  | outerCaught (docs : List (String × TrackedDocument)) (notes : List Note)
  | stopped (docs : List (String × TrackedDocument)) (notes : List Note)
  | crashed (e : PyExc) (docs : List (String × TrackedDocument)) (notes : List Note)
  deriving DecidableEq, Repr

/-- One tick of `_tracking_loop` over the current registry. -/
def trackingTick (step : String → TrackedDocument → Except PyExc HandlerResult)
    (docs : List (String × TrackedDocument)) : TickOutcome :=
  let t := runItems step docs
  match t.escaped with
  | none => .normal (t.docs.filter (fun p => !t.completed.contains p.1)) t.notes
  | some e =>
    if e.cls == ExcKind.cancelledError then .stopped t.docs t.notes
    else if loopCaught e.cls then .outerCaught t.docs t.notes
    else .crashed e t.docs t.notes

/-- The step `_process_document_state` gives to the loop, for a fixed
per-tick environment. -/
def stepOf (w : World) : String → TrackedDocument → Except PyExc HandlerResult :=
  fun _ doc => processDocumentState w doc

/-- The loop's running state across ticks: the registry, the notifications
sent so far, and whether the loop has exited (stop or crash). -/
structure LoopState where
  docs : List (String × TrackedDocument)
  notes : List Note
  halted : Bool
  deriving DecidableEq, Repr

/-- One tick of the loop on its running state: a halted loop does nothing;
otherwise outcomes update the registry and, for a stop or an uncaught
exception, halt the loop. -/
def loopTick (step : String → TrackedDocument → Except PyExc HandlerResult)
    (s : LoopState) : LoopState :=
  if s.halted then s
  else
    match trackingTick step s.docs with
    | .normal d ns => ⟨d, s.notes ++ ns, false⟩
    | .outerCaught d ns => ⟨d, s.notes ++ ns, false⟩
    | .stopped d ns => ⟨d, s.notes ++ ns, true⟩
    | .crashed _ d ns => ⟨d, s.notes ++ ns, true⟩

/-- `n` ticks of the loop. -/
def runLoopN (step : String → TrackedDocument → Except PyExc HandlerResult)
    (n : Nat) (s : LoopState) : LoopState :=
  match n with
  | 0 => s
  | n + 1 => runLoopN step n (loopTick step s)

/-- An ISO-8601 serialized timestamp, or a malformed stored value. -/
inductive SerTime where
  | iso (t : Int)
  | garbled (s : String)
  deriving DecidableEq, Repr

/-- `datetime.fromisoformat` on a stored value. -/
def parseSerTime : SerTime → Option Int
  | .iso t => some t
  | .garbled _ => none

/-- One serialized record of the persisted snapshot: every
`TrackedDocument` field except the `paperless_client` handle, with the
upload time as an ISO string. -/
structure StoredDoc where
  task_id : String
  user_id : Int
  chat_id : Int
  filename : String
  upload_time : SerTime
  status : Status
  document_id : Option Int
  ai_processed : Bool
  retry_count : Nat
  max_retries : Nat
  ai_analysis : Option AiMeta
  tracking_uuid : Option String
  deriving DecidableEq, Repr

/-- Serialization of one item in `_save_state`. -/
def serializeDoc (d : TrackedDocument) : StoredDoc :=
  { task_id := d.task_id, user_id := d.user_id, chat_id := d.chat_id,
    filename := d.filename, upload_time := .iso d.upload_time, status := d.status,
    document_id := d.document_id, ai_processed := d.ai_processed,
    retry_count := d.retry_count, max_retries := d.max_retries,
    ai_analysis := d.ai_analysis, tracking_uuid := d.tracking_uuid }

/-- `_save_state`: serialize every tracked item under its task id. -/
def saveState (registry : List (String × TrackedDocument)) : List (String × StoredDoc) :=
  registry.map (fun p => (p.1, serializeDoc p.2))

/-- The staleness test of `_restore_state`: an entry is cleaned up when its
timestamp fails to parse or is more than `CACHE_EXPIRE_TIME` seconds old. -/
def storedEntryStale (now : Int) (sd : StoredDoc) : Bool :=
  match parseSerTime sd.upload_time with
  | some t => decide (CACHE_EXPIRE_TIME < now - t)
  | none => true

/-- What `_restore_state` leaves behind: the cleaned snapshot, the live
registry it builds (always empty — records are logged, never rehydrated),
and whether the snapshot was rewritten. -/
structure RestoreResult where
  stored : List (String × StoredDoc)
  live : List (String × TrackedDocument)
  rewrote : Bool
  deriving DecidableEq, Repr

/-- `_restore_state`. -/
def restoreState (now : Int) (stored : List (String × StoredDoc)) : RestoreResult :=
  let old := stored.filter (fun p => storedEntryStale now p.2)
  { stored := stored.filter (fun p => !storedEntryStale now p.2),
    live := [],
    rewrote := !old.isEmpty }

/-- An environment in which nothing ever progresses: the upload task stays
running, no listing or search ever matches, no AI metadata appears. -/
def noMatchWorld : World :=
  { taskStatus := none, recent50 := some [], search := fun _ => some [],
    recent20 := some [], fetchDoc := fun _ => .notFound, recentVerify := some [],
    aiUrl := true, aiTriggerOk := true, aiMeta := none }

/-- An item waiting for AI enrichment (`awaitingEnrichment`). -/
def enrichDoc : TrackedDocument :=
  { task_id := "t2", user_id := 1, chat_id := 1, filename := "invoice.pdf",
    upload_time := 0, status := .waiting_for_ai, document_id := some 7 }

/-- A registry holding only `enrichDoc`, with no notifications yet. -/
def enrichInit : LoopState := ⟨[("t2", enrichDoc)], [], false⟩

/-- An item in `awaitingVisibility` with no matching token and filename
`invoice.pdf` (Scenario C of the spec). -/
def consumeDoc : TrackedDocument :=
  { task_id := "t1", user_id := 1, chat_id := 1, filename := "invoice.pdf",
    upload_time := 0, status := .waiting_for_consumption }

/-- A registry holding only `consumeDoc`, with no notifications yet. -/
def consumeInit : LoopState := ⟨[("t1", consumeDoc)], [], false⟩

/-- The exception `PaperlessClient.get_document_status` raises on any
non-200 task-status response: a bare `Exception`, a class none of the
tracker's `except` tuples names. -/
def statusExc : PyExc := ⟨.otherException, "Failed to get task status: 404"⟩

/-- The environment in which the task-status call raises `statusExc`. -/
def crashWorld : World := { noMatchWorld with taskStatus := some statusExc }

/-- Two items in the `uploading` state. -/
def crashDocA : TrackedDocument :=
  { task_id := "a", user_id := 1, chat_id := 1, filename := "a.pdf", upload_time := 0 }

/-- Second item, identical but for its key. -/
def crashDocB : TrackedDocument :=
  { task_id := "b", user_id := 2, chat_id := 2, filename := "b.pdf", upload_time := 0 }

/-- A world whose task-status call raises `AttributeError`, one of the four
per-item caught classes (it escapes the processing handler's own catch,
which names only `ClientError`, `ValueError`, `KeyError`). -/
def attrWorld : World := { noMatchWorld with taskStatus := some ⟨.attributeError, "boom"⟩ }

/-- The AI metadata appearing in the C4 counterexample. -/
def invoiceMeta : AiMeta := ⟨"T", ["Invoice"], none, none, none⟩

/-- A world in which AI metadata is present. -/
def aiDoneWorld : World := { noMatchWorld with aiMeta := some invoiceMeta }

/-- An `awaitingEnrichment` item that has already spent 5 ticks in the
state. -/
def aiFifthTickDoc : TrackedDocument :=
  { task_id := "t9", user_id := 1, chat_id := 1, filename := "f.pdf",
    upload_time := 0, status := .waiting_for_ai, document_id := some 7,
    retry_count := 5 }

/-- The item `aiFifthTickDoc` after its transition into `completed`. -/
def aiCompletedDoc : TrackedDocument :=
  { aiFifthTickDoc with
    ai_analysis := some invoiceMeta, ai_processed := true, status := .completed }

/-- An item in the `uploading` state, used to instantiate hypotheses. -/
def procDoc : TrackedDocument :=
  { task_id := "p1", user_id := 1, chat_id := 1, filename := "p.pdf", upload_time := 0 }

/-- A registry already holding an item, for the C5 witness. -/
def preReg : List (String × TrackedDocument) := [("x", procDoc)]

/-- An immediate status probe reporting `SUCCESS` with document id 77. -/
def successHint : ImmediateStatus := ⟨"SUCCESS", some 77, none⟩

/-- An item sitting in the `indexing` stage with a resolved id. -/
def indexingDoc : TrackedDocument :=
  { task_id := "t5", user_id := 1, chat_id := 1, filename := "f.pdf",
    upload_time := 0, status := .paperless_indexing, document_id := some 77 }

/-- One not-yet-ready tick of `indexingDoc` in the no-match environment. -/
def stepIndexingResult : HandlerResult :=
  ⟨{ indexingDoc with retry_count := 1 }, false, []⟩

/-- An item carrying the tracking token `abc123`. -/
def tokenDoc : TrackedDocument :=
  { task_id := "t6", user_id := 1, chat_id := 1, filename := "f.pdf",
    upload_time := 0, status := .waiting_for_consumption,
    tracking_uuid := some "abc123" }

/-- The candidates the fallback scans, in scan order: for each term the
results of that term's search (a failed search contributing nothing). -/
def fallbackCandidates (w : World) (terms : List String) : List UDoc :=
  terms.flatMap (fun tm => (searchDocumentsByTerm w tm).getD [])

/-- The fallback lookup as claim C7 words it: query first the display name
without its extension (in the usual `os.path.splitext` sense), then the
full display name, then the empty query; accept a result on a creation
timestamp at or after submission minus 10 minutes; the first satisfying
candidate across the three attempts wins. -/
def specFallbackLookup (w : World) (filename : String) (upload_time : Int) : Option Int :=
  (fallbackCandidates w [dropLastExt filename, filename, ""]).findSome?
    (acceptRecent (upload_time - 600))

/-- A world in which only the query `a.b` has a (recent) result. -/
def extWorld : World :=
  { noMatchWorld with
    search := fun tm => if tm == "a.b" then some [⟨some 5, .time 1000, "ab", "ab"⟩]
      else some [] }

/-- A world in which document 9 is fetchable with content and a creation
date and appears in the recent listing. -/
def readyWorld : World :=
  { noMatchWorld with
    fetchDoc := fun j => if j == 9 then .payload "text" (.time 50) else .notFound,
    recentVerify := some [⟨some 9, .time 50, "n.pdf", "n"⟩] }

/-- An item whose resolved document id is 9. -/
def readyProbeDoc : TrackedDocument :=
  { task_id := "t8", user_id := 1, chat_id := 1, filename := "n.pdf",
    upload_time := 0, status := .paperless_indexing, document_id := some 9 }

/-- A fresh item and registry for the C9 witness. -/
def storeDoc : TrackedDocument :=
  { task_id := "s1", user_id := 1, chat_id := 1, filename := "s.pdf",
    upload_time := 1000 }

/-- A second registry holding a different prior item under the same key,
for the C10 witness. -/
def preReg2 : List (String × TrackedDocument) := [("x", indexingDoc), ("p1", indexingDoc)]

/-! ## Theorems -/

/-- Claim C1. The claim says the 30-tick `globalAttemptCeiling` is an
absolute cap only on the `uploading` state, and that items in every other
state are bounded by that state's own budget, not by the ceiling. In the
code the check `retry_count >= max_retries` (30) runs before the
state-specific handler in every non-completed state: an item in
`awaitingEnrichment` (per-state budget 120) that never receives metadata is
force-completed with the timeout notification on tick 31, when its
attempt count (reset to 0 on entering the state) reaches 30. -/
theorem globalCeiling_fires_in_awaitingEnrichment :
    (runLoopN (stepOf noMatchWorld) 30 enrichInit).docs =
      [("t2", { enrichDoc with retry_count := 30 })] ∧
    runLoopN (stepOf noMatchWorld) 31 enrichInit = ⟨[], [Note.timeout], false⟩ ∧
    31 < AI_PROCESSING_TIMEOUT := by
  refine ⟨by rfl, by rfl, by decide⟩

/-- Claim C2. The claim says an `awaitingVisibility` item that never
matches completes on tick 60 with the basic-success notification. In the
code the global check at `max_retries` (30) preempts the 60-tick window:
the item (no token, filename `invoice.pdf`) is still tracked after 30 ticks
with attempt count 30, and on tick 31 it is removed with the timeout
notification; the `CONSUMPTION_TIMEOUT` branch of the handler never runs. -/
theorem consumption_window_preempted_by_global_ceiling :
    (runLoopN (stepOf noMatchWorld) 30 consumeInit).docs =
      [("t1", { consumeDoc with retry_count := 30 })] ∧
    runLoopN (stepOf noMatchWorld) 31 consumeInit = ⟨[], [Note.timeout], false⟩ ∧
    31 < CONSUMPTION_TIMEOUT ∧ Note.timeout ≠ Note.basicSuccess := by
  refine ⟨by rfl, by rfl, by decide, by decide⟩

/-- Claim C3, counterexample. The claim says every exception raised by a
state handler is caught by the loop, logged, and counted on that item, and
that no exception class terminates the loop. But the per-item catch names
only four classes, and the loop-level catch only five: the bare `Exception`
raised by `get_document_status` on a non-200 response escapes both, so the
tick crashes the loop, the first item's attempt count is not incremented,
and the second item of the same tick is never processed. -/
theorem uncaught_handler_exception_crashes_loop :
    trackingTick (stepOf crashWorld) [("a", crashDocA), ("b", crashDocB)] =
      TickOutcome.crashed statusExc [("a", crashDocA), ("b", crashDocB)] [] ∧
    crashDocA.retry_count = 0 ∧
    perItemCaught statusExc.cls = false ∧ loopCaught statusExc.cls = false := by
  refine ⟨by rfl, by rfl, by rfl, by rfl⟩

/-- Claim C3, amended: only exceptions of the four classes
`aiohttp.ClientError`, `ValueError`, `KeyError`, `AttributeError` raised by
an item's step are caught in the per-item loop; such an exception leaves
that item with its attempt count incremented, processes the remaining
items of the tick exactly as they would be processed alone, and — when the
rest of the tick raises nothing uncaught — the tick completes normally. -/
theorem caught_handler_exception_increments_and_continues
    (step : String → TrackedDocument → Except PyExc HandlerResult)
    (tid : String) (d : TrackedDocument) (rest : List (String × TrackedDocument))
    (e : PyExc) (h1 : step tid d = Except.error e) (h2 : perItemCaught e.cls = true) :
    runItems step ((tid, d) :: rest) =
      ⟨(tid, { d with retry_count := d.retry_count + 1 }) :: (runItems step rest).docs,
        (runItems step rest).completed, (runItems step rest).notes,
        (runItems step rest).escaped⟩ ∧
    ((runItems step rest).escaped = none →
      ∃ docs notes, trackingTick step ((tid, d) :: rest) = TickOutcome.normal docs notes) := by
  have hrun : runItems step ((tid, d) :: rest) =
      ⟨(tid, { d with retry_count := d.retry_count + 1 }) :: (runItems step rest).docs,
        (runItems step rest).completed, (runItems step rest).notes,
        (runItems step rest).escaped⟩ := by
    simp [runItems, h1, h2]
  refine ⟨hrun, fun hesc => ?_⟩
  have htick : trackingTick step ((tid, d) :: rest) =
      TickOutcome.normal
        ((((tid, { d with retry_count := d.retry_count + 1 }) ::
            (runItems step rest).docs).filter
          (fun p => !(runItems step rest).completed.contains p.1)))
        (runItems step rest).notes := by
    simp [trackingTick, hrun, hesc]
  exact ⟨_, _, htick⟩

/-- Witness for the amended claim C3 on a concrete registry of two items. -/
theorem caught_handler_exception_increments_and_continues_witness :
    runItems (stepOf attrWorld) [("a", crashDocA), ("b", crashDocB)] =
      ⟨("a", { crashDocA with retry_count := crashDocA.retry_count + 1 }) ::
          (runItems (stepOf attrWorld) [("b", crashDocB)]).docs,
        (runItems (stepOf attrWorld) [("b", crashDocB)]).completed,
        (runItems (stepOf attrWorld) [("b", crashDocB)]).notes,
        (runItems (stepOf attrWorld) [("b", crashDocB)]).escaped⟩ ∧
    ((runItems (stepOf attrWorld) [("b", crashDocB)]).escaped = none →
      ∃ docs notes, trackingTick (stepOf attrWorld) [("a", crashDocA), ("b", crashDocB)] =
        TickOutcome.normal docs notes) :=
  caught_handler_exception_increments_and_continues (stepOf attrWorld) "a" crashDocA
    [("b", crashDocB)] ⟨.attributeError, "boom"⟩ (by rfl) (by rfl)

/-- Claim C4, counterexample. The claim says the attempt count is 0
immediately after every transition, including transitions into
`completed`. But `_handle_waiting_for_ai_state` sets `status = "completed"`
without resetting `retry_count`: an item that finds its AI metadata on its
sixth tick in the state transitions to `completed` with attempt count
still 5. -/
theorem transition_to_completed_keeps_attempt_count :
    processDocumentState aiDoneWorld aiFifthTickDoc =
      Except.ok ⟨aiCompletedDoc, true, [.success]⟩ ∧
    aiFifthTickDoc.status ≠ Status.completed ∧
    aiCompletedDoc.status = Status.completed ∧
    aiCompletedDoc.retry_count = 5 := by
  refine ⟨by rfl, by decide, by rfl, by rfl⟩

/-- Claim C4, amended: the attempt count is 0 immediately after every
transition into a non-terminal state, and is monotonically non-decreasing
while the state is unchanged; a transition into `completed` does not reset
it (the item is removed the same tick). -/
theorem attempt_count_reset_on_nonterminal_transition
    (w : World) (doc : TrackedDocument) (r : HandlerResult)
    (h : processDocumentState w doc = Except.ok r) :
    (r.doc.status ≠ doc.status → r.doc.status ≠ Status.completed →
      r.doc.retry_count = 0) ∧
    (r.doc.status = doc.status → doc.retry_count ≤ r.doc.retry_count) := by
  unfold processDocumentState handleProcessing handleWaitingForConsumption
    handlePaperlessIndexing handleTriggeringAi handleWaitingForAi at h
  dsimp only at h
  repeat' split at h
  all_goals
    first
    | exact (Except.noConfusion h)
    | (injection h with h2; subst h2;
       refine ⟨fun ha hb => ?_, fun hc2 => ?_⟩ <;> simp_all)

/-- Witness for the amended claim C4: one still-processing tick on a fresh
`uploading` item. -/
theorem attempt_count_reset_on_nonterminal_transition_witness :
    ((⟨{ procDoc with retry_count := 1 }, false, []⟩ : HandlerResult).doc.status ≠
        procDoc.status →
      (⟨{ procDoc with retry_count := 1 }, false, []⟩ : HandlerResult).doc.status ≠
        Status.completed →
      (⟨{ procDoc with retry_count := 1 }, false, []⟩ : HandlerResult).doc.retry_count = 0) ∧
    ((⟨{ procDoc with retry_count := 1 }, false, []⟩ : HandlerResult).doc.status =
        procDoc.status →
      procDoc.retry_count ≤
        (⟨{ procDoc with retry_count := 1 }, false, []⟩ : HandlerResult).doc.retry_count) :=
  attempt_count_reset_on_nonterminal_transition noMatchWorld procDoc
    ⟨{ procDoc with retry_count := 1 }, false, []⟩ (by rfl)

/-- Looking up the key just assigned by a Python dict assignment yields the
assigned value. -/
theorem dictGet_dictSet {α : Type} (l : List (String × α)) (k : String) (v : α) :
    dictGet (dictSet l k v) k = some v := by
  induction l with
  | nil => simp [dictSet, dictGet, List.find?]
  | cons p rest ih =>
    obtain ⟨k2, v2⟩ := p
    by_cases hk : (k2 == k) = true
    · simp [dictSet, hk, dictGet, List.find?]
    · have hk2 : (k2 == k) = false := by simpa using hk
      simp only [dictGet] at ih
      simp [dictSet, hk2, dictGet, List.find?, ih]

/-- Claim C5. A registration whose immediate status probe reports
`SUCCESS` with a truthy resolved document id creates the item directly in
`paperless_indexing` with the id set and a zero counter; a registration
without such a hint starts in `processing` (the `uploading` stage); and
from the `paperless_indexing` stage onward no step of the state machine
sets the state to `processing` or `waiting_for_consumption`, so an item
created in `indexing` never visits `uploading` or `awaitingVisibility`. -/
theorem register_with_success_hint_skips_upload_states :
    (∀ (reg : List (String × TrackedDocument)) (tid : String) (u c : Int)
      (fn : String) (now : Int) (h : ImmediateStatus) (uuid : Option String),
      h.status = "SUCCESS" → optIntTruthy (hintResolvedId h) = true →
      ∃ d, dictGet (addDocument reg tid u c fn now (some h) uuid).1 tid = some d ∧
        d.status = Status.paperless_indexing ∧ d.document_id = hintResolvedId h ∧
        d.retry_count = 0 ∧ d.upload_time = now) ∧
    (∀ (reg : List (String × TrackedDocument)) (tid : String) (u c : Int)
      (fn : String) (now : Int) (oh : Option ImmediateStatus) (uuid : Option String),
      (∀ h, oh = some h →
        ¬(h.status = "SUCCESS" ∧ optIntTruthy (hintResolvedId h) = true)) →
      ∃ d, dictGet (addDocument reg tid u c fn now oh uuid).1 tid = some d ∧
        d.status = Status.processing) ∧
    (∀ (w : World) (doc : TrackedDocument) (r : HandlerResult),
      (doc.status = Status.paperless_indexing ∨ doc.status = Status.triggering_ai ∨
        doc.status = Status.waiting_for_ai ∨ doc.status = Status.completed) →
      processDocumentState w doc = Except.ok r →
      r.doc.status ≠ Status.processing ∧
      r.doc.status ≠ Status.waiting_for_consumption ∧
      (r.doc.status = Status.paperless_indexing ∨ r.doc.status = Status.triggering_ai ∨
        r.doc.status = Status.waiting_for_ai ∨ r.doc.status = Status.completed)) := by
  refine ⟨?_, ?_, ?_⟩
  · intro reg tid u c fn now h uuid hs ht
    refine ⟨_, dictGet_dictSet reg tid _, ?_⟩
    simp [applyImmediateStatus, newTrackedDocument, hs, ht]
  · intro reg tid u c fn now oh uuid hn
    refine ⟨_, dictGet_dictSet reg tid _, ?_⟩
    cases oh with
    | none => simp [applyImmediateStatus, newTrackedDocument]
    | some h =>
      have hn2 := hn h rfl
      by_cases hs : (h.status == "SUCCESS") = true
      · have hs2 : h.status = "SUCCESS" := by simpa using hs
        have ht : optIntTruthy (hintResolvedId h) = false := by
          rcases Bool.eq_false_or_eq_true (optIntTruthy (hintResolvedId h)) with h1 | h0
          · exact absurd ⟨hs2, h1⟩ hn2
          · exact h0
        simp [applyImmediateStatus, newTrackedDocument, hs, ht]
      · have hs2 : (h.status == "SUCCESS") = false := by simpa using hs
        simp [applyImmediateStatus, newTrackedDocument, hs2]
  · intro w doc r hst hp
    unfold processDocumentState handlePaperlessIndexing handleTriggeringAi
      handleWaitingForAi at hp
    dsimp only at hp
    rcases hst with h1 | h1 | h1 | h1 <;> simp only [h1] at hp <;>
      repeat' split at hp
    all_goals
      first
      | exact (Except.noConfusion hp)
      | (injection hp with hp2; subst hp2; refine ⟨?_, ?_, ?_⟩ <;> simp_all)

/-- Witness for claim C5: a `SUCCESS` hint with id 77 lands in
`paperless_indexing`; no hint lands in `processing`; one indexing step
of a concrete item stays past the upload states. -/
theorem register_with_success_hint_skips_upload_states_witness :
    (∃ d, dictGet (addDocument preReg "t5" 1 1 "f.pdf" 0 (some successHint) none).1
        "t5" = some d ∧
      d.status = Status.paperless_indexing ∧ d.document_id = hintResolvedId successHint ∧
      d.retry_count = 0 ∧ d.upload_time = 0) ∧
    (∃ d, dictGet (addDocument preReg "t5" 1 1 "f.pdf" 0 none none).1 "t5" = some d ∧
      d.status = Status.processing) ∧
    ((stepIndexingResult).doc.status ≠ Status.processing ∧
      (stepIndexingResult).doc.status ≠ Status.waiting_for_consumption ∧
      ((stepIndexingResult).doc.status = Status.paperless_indexing ∨
        (stepIndexingResult).doc.status = Status.triggering_ai ∨
        (stepIndexingResult).doc.status = Status.waiting_for_ai ∨
        (stepIndexingResult).doc.status = Status.completed)) :=
  ⟨register_with_success_hint_skips_upload_states.1 preReg "t5" 1 1 "f.pdf" 0
      successHint none rfl (by decide),
    register_with_success_hint_skips_upload_states.2.1 preReg "t5" 1 1 "f.pdf" 0
      none none (fun h hh => by cases hh),
    register_with_success_hint_skips_upload_states.2.2 noMatchWorld indexingDoc
      stepIndexingResult (Or.inl rfl) (by rfl)⟩

/-- Claim C6. For an item whose tracking UUID is set, the consumption-state
lookup is exactly the token search over the recent-50 listing — the first
candidate whose original filename or title contains the token — and it is
unchanged under any replacement of the search function and recent-20
listing the filename fallback would use, so the fallback is never
attempted that tick. -/
theorem token_search_runs_alone
    (w : World) (doc : TrackedDocument) (u : String)
    (s : String → Option (List UDoc)) (r20 : Option (List UDoc))
    (h : doc.tracking_uuid = some u) :
    consumptionLookup { w with search := s, recent20 := r20 } doc =
      consumptionLookup w doc ∧
    consumptionLookup w doc = findDocumentByUuid w.recent50 u ∧
    (∀ ds, w.recent50 = some ds →
      findDocumentByUuid w.recent50 u = (ds.find? (uuidMatch u)).bind UDoc.id) := by
  refine ⟨by simp [consumptionLookup, h], by simp [consumptionLookup, h], ?_⟩
  intro ds hds
  rw [hds]
  unfold findDocumentByUuid
  cases hf : ds.find? (uuidMatch u) <;> simp [hf]

/-- Witness for claim C6, instantiated at `tokenDoc` in the no-match
environment with an arbitrary alternative fallback world. -/
theorem token_search_runs_alone_witness :
    consumptionLookup { noMatchWorld with search := fun _ => none, recent20 := none }
        tokenDoc = consumptionLookup noMatchWorld tokenDoc ∧
    consumptionLookup noMatchWorld tokenDoc =
      findDocumentByUuid noMatchWorld.recent50 "abc123" ∧
    (∀ ds, noMatchWorld.recent50 = some ds →
      findDocumentByUuid noMatchWorld.recent50 "abc123" =
        (ds.find? (uuidMatch "abc123")).bind UDoc.id) :=
  token_search_runs_alone noMatchWorld tokenDoc "abc123" (fun _ => none) none rfl

/-- `findSome?` over a flattened list scans the sublists in order. -/
theorem findSome?_flatMap {α β γ : Type} (l : List α) (g : α → List β) (f : β → Option γ) :
    (l.flatMap g).findSome? f = l.findSome? (fun a => (g a).findSome? f) := by
  induction l with
  | nil => rfl
  | cons a t ih =>
    rw [List.flatMap_cons, List.findSome?_append, ih]
    cases hga : (g a).findSome? f <;> simp [List.findSome?_cons, hga, Option.or]

/-- `findSome?` respects pointwise equal functions. -/
theorem findSome?_ext {α γ : Type} (l : List α) (f g : α → Option γ)
    (h : ∀ a, f a = g a) : l.findSome? f = l.findSome? g := by
  induction l with
  | nil => rfl
  | cons a t ih => simp [List.findSome?_cons, h a, ih]

/-- Claim C7, counterexample. The claim says the first fallback query is
the display name without its extension. The code queries
`filename.split(".")[0]` — the part before the FIRST dot. On the filename
`a.b.c` they differ: reading the claim literally the first query is `a.b`
and the item matches document 5, while the code queries `a`, then `a.b.c`,
then the empty term, and finds nothing. -/
theorem fallback_first_term_is_before_first_dot :
    findRecentDocumentByFilename extWorld "a.b.c" 1000 = none ∧
    specFallbackLookup extWorld "a.b.c" 1000 = some 5 ∧
    beforeFirstDot "a.b.c" = "a" ∧ dropLastExt "a.b.c" = "a.b" := by
  refine ⟨by rfl, by rfl, by rfl, by rfl⟩

/-- Claim C7, amended: the fallback tries exactly three queries in order —
(a) the part of the display name before its first dot, (b) the full
display name, (c) the empty query — and returns the first scanned result
(across the three result lists, in order) with a truthy id and a creation
timestamp parsing to a time at or after submission minus 10 minutes;
if no candidate satisfies this, no match is reported. -/
theorem fallback_tries_three_terms_in_order (w : World) (fn : String) (t : Int) :
    findRecentDocumentByFilename w fn t =
      (fallbackCandidates w (fallbackSearchTerms fn)).findSome? (acceptRecent (t - 600)) := by
  unfold findRecentDocumentByFilename fallbackCandidates
  dsimp only
  rw [findSome?_flatMap]
  apply findSome?_ext
  intro term
  cases hs : searchDocumentsByTerm w term <;> simp [hs]

/-- Claim C8. For an item with a truthy resolved document id, the
readiness probe returns true iff the fetch by id returns a payload (so a
404, another HTTP error, or an exception all yield false, not a distinct
path), the payload's stripped content is non-empty, it carries a truthy
creation timestamp, and the id appears in the recency-ordered listing. -/
theorem readiness_probe_iff (w : World) (doc : TrackedDocument) (i : Int)
    (h1 : doc.document_id = some i) (h2 : i ≠ 0) :
    isDocumentReady w doc = true ↔
      ∃ content created, w.fetchDoc i = FetchResult.payload content created ∧
        stripTruthy content = true ∧ dateTruthy created = true ∧
        ∃ ds, w.recentVerify = some ds ∧ ds.any (fun d => d.id == some i) = true := by
  have h2b : (i == 0) = false := by simpa using h2
  unfold isDocumentReady
  rw [h1]
  cases hf : w.fetchDoc i with
  | notFound => simp [h2b, hf]
  | httpError code => simp [h2b, hf]
  | exc => simp [h2b, hf]
  | payload content created =>
    by_cases hc : (stripTruthy content && dateTruthy created) = true
    · rcases Bool.and_eq_true_iff.mp hc with ⟨hc1, hc2⟩
      unfold verifyDocumentSearchable
      cases hr : w.recentVerify with
      | none => simp [h2b, hf, hc, hr]
      | some ds =>
        simp only [h2b, hf, hc, hr]
        simp [hc1, hc2]
        constructor
        · intro hx
          exact ⟨content, created, ⟨rfl, rfl⟩, hc1, hc2, hx⟩
        · rintro ⟨c2, r2, ⟨e1, e2⟩, _, _, hx⟩
          exact hx
    · have hcf : (stripTruthy content && dateTruthy created) = false := by
        simpa using hc
      constructor
      · intro habs
        simp [h2b, hf, hcf] at habs
      · rintro ⟨c2, r2, hpay, hs2, hd2, _⟩
        injection hpay with e1 e2
        subst e1; subst e2
        simp [hs2, hd2] at hcf

/-- Witness for claim C8 at a concrete ready document. -/
theorem readiness_probe_iff_witness :
    isDocumentReady readyWorld readyProbeDoc = true ↔
      ∃ content created, readyWorld.fetchDoc 9 = FetchResult.payload content created ∧
        stripTruthy content = true ∧ dateTruthy created = true ∧
        ∃ ds, readyWorld.recentVerify = some ds ∧
          ds.any (fun d => d.id == some 9) = true :=
  readiness_probe_iff readyWorld readyProbeDoc 9 rfl (by decide)

/-- Claim C9. A tracked item persisted to the store keeps a timestamp that
parses back equal to the original; restore builds no live item (the live
registry it returns is empty); a record persisted less than 24 hours before
the restore survives the cleanup; and the cleanup deletes exactly the
entries that are stale — those whose timestamp fails to parse or lies more
than 24 hours before the restore time. -/
theorem persistence_round_trip (reg : List (String × TrackedDocument))
    (tid : String) (d : TrackedDocument) (now : Int)
    (hmem : (tid, d) ∈ reg) (hfresh : now - d.upload_time < CACHE_EXPIRE_TIME) :
    (tid, serializeDoc d) ∈ saveState reg ∧
    parseSerTime (serializeDoc d).upload_time = some d.upload_time ∧
    (restoreState now (saveState reg)).live = [] ∧
    (tid, serializeDoc d) ∈ (restoreState now (saveState reg)).stored ∧
    (∀ p : String × StoredDoc, p ∈ (restoreState now (saveState reg)).stored ↔
      p ∈ saveState reg ∧ storedEntryStale now p.2 = false) ∧
    (∀ sd : StoredDoc, storedEntryStale now sd = true ↔
      (parseSerTime sd.upload_time = none ∨
        ∃ t, parseSerTime sd.upload_time = some t ∧ CACHE_EXPIRE_TIME < now - t)) := by
  have hmems : (tid, serializeDoc d) ∈ saveState reg := by
    unfold saveState
    exact List.mem_map.mpr ⟨(tid, d), hmem, rfl⟩
  have hstale : storedEntryStale now (serializeDoc d) = false := by
    unfold storedEntryStale serializeDoc parseSerTime
    simp only [decide_eq_false_iff_not]
    omega
  refine ⟨hmems, rfl, rfl, ?_, ?_, ?_⟩
  · unfold restoreState
    exact List.mem_filter.mpr ⟨hmems, by simp [hstale]⟩
  · intro p
    unfold restoreState
    rw [List.mem_filter]
    simp
  · intro sd
    cases ht : sd.upload_time with
    | iso t2 => simp [storedEntryStale, parseSerTime, ht]
    | garbled s2 => simp [storedEntryStale, parseSerTime, ht]

/-- Witness for claim C9: `storeDoc` saved at time 1000 and restored at
time 2000. -/
theorem persistence_round_trip_witness :
    (("s1", serializeDoc storeDoc) ∈ saveState [("s1", storeDoc)] ∧
    parseSerTime (serializeDoc storeDoc).upload_time = some storeDoc.upload_time ∧
    (restoreState 2000 (saveState [("s1", storeDoc)])).live = [] ∧
    ("s1", serializeDoc storeDoc) ∈ (restoreState 2000 (saveState [("s1", storeDoc)])).stored ∧
    (∀ p : String × StoredDoc, p ∈ (restoreState 2000 (saveState [("s1", storeDoc)])).stored ↔
      p ∈ saveState [("s1", storeDoc)] ∧ storedEntryStale 2000 p.2 = false) ∧
    (∀ sd : StoredDoc, storedEntryStale 2000 sd = true ↔
      (parseSerTime sd.upload_time = none ∨
        ∃ t, parseSerTime sd.upload_time = some t ∧ CACHE_EXPIRE_TIME < 2000 - t))) :=
  persistence_round_trip [("s1", storeDoc)] "s1" storeDoc 2000 (by simp) (by decide)

/-- Claim C10. Registering a submission identifier already in the registry
raises nothing and rejects nothing (the embedding is total): the entry is
silently replaced by a fresh item whose submission time is the new `now`,
whose counter is 0 and AI state is clear, and whose content is independent
of whatever item (state, resolved id) either registry previously held; no
notification is sent. -/
theorem reregister_replaces_silently
    (reg reg2 : List (String × TrackedDocument)) (tid : String)
    (old old2 : TrackedDocument) (u c : Int) (fn : String) (now : Int)
    (oh : Option ImmediateStatus) (uuid : Option String)
    (h1 : dictGet reg tid = some old) (h2 : dictGet reg2 tid = some old2) :
    (addDocument reg tid u c fn now oh uuid).2 = [] ∧
    (∃ d, dictGet (addDocument reg tid u c fn now oh uuid).1 tid = some d ∧
      d.upload_time = now ∧ d.retry_count = 0 ∧ d.ai_processed = false ∧
      d.ai_analysis = none ∧ d.filename = fn ∧ d.tracking_uuid = uuid ∧
      dictGet (addDocument reg2 tid u c fn now oh uuid).1 tid = some d) := by
  refine ⟨rfl, ⟨_, dictGet_dictSet reg tid _, ?_, ?_, ?_, ?_, ?_, ?_,
    dictGet_dictSet reg2 tid _⟩⟩ <;>
  · cases oh with
    | none => rfl
    | some h =>
      unfold applyImmediateStatus newTrackedDocument hintResolvedId
      dsimp only
      repeat' split
      all_goals rfl

/-- Witness for claim C10: re-registering key `p1`, present in two
different registries, yields the same fresh item in both. -/
theorem reregister_replaces_silently_witness :
    (addDocument [("p1", procDoc)] "p1" 1 1 "q.pdf" 7 none (some "u9")).2 = [] ∧
    (∃ d, dictGet (addDocument [("p1", procDoc)] "p1" 1 1 "q.pdf" 7 none (some "u9")).1
        "p1" = some d ∧
      d.upload_time = 7 ∧ d.retry_count = 0 ∧ d.ai_processed = false ∧
      d.ai_analysis = none ∧ d.filename = "q.pdf" ∧ d.tracking_uuid = some "u9" ∧
      dictGet (addDocument preReg2 "p1" 1 1 "q.pdf" 7 none (some "u9")).1 "p1" =
        some d) :=
  reregister_replaces_silently [("p1", procDoc)] preReg2 "p1" procDoc indexingDoc
    1 1 "q.pdf" 7 none (some "u9") (by rfl) (by rfl)

end DT
